import Mathlib

set_option autoImplicit false

/-!
Shallow embedding of `agent_template.py`, the single-file Python client of the
VS Code Agent Bridge HTTP API (`vscode-agent-bridge`).

The client is a thin wrapper: every method builds a JSON body, performs HTTP
round trips against a host/port, and unwraps the JSON response.  We embed it
as pure functions over a transport oracle `Oracle : Request → TransportResult`
that models what the network does for each request.  Each embedded call
returns a `CallOut α`: the Python result (or the Python exception that
escapes) together with the ordered list of HTTP requests the call issued.

JSON values are modelled by `JVal`; Python dictionaries decoded from response
bodies by `JDict` (association lists, first binding wins, insertion order
preserved, as CPython dicts and `json` do).  Python truthiness is `JVal.truthy`.
A transport failure (connection refused, timed-out socket) and a response body
that `json.loads` rejects are distinct modelled exceptions, different from
`BridgeError`, exactly as in the Python runtime.
-/

/-- JSON-like values as decoded by `json.loads` / built for `json.dumps`. -/
inductive JVal where
  | null
  | bool (b : Bool)
  | num (n : Int)
  | str (s : String)
  | arr (xs : List JVal)
  | obj (kvs : List (String × JVal))
deriving Repr, Inhabited

/-- A decoded JSON object / a Python dict used as a request or response body. -/
abbrev JDict := List (String × JVal)

/-- Python truthiness of a JSON value (`if data.get("ok"):` etc.). -/
def JVal.truthy : JVal → Bool
  | .null => false
  | .bool b => b
  | .num n => n != 0
  | .str s => s != ""
  | .arr xs => !xs.isEmpty
  | .obj kvs => !kvs.isEmpty

/-- The string elements of a JSON array (file-name lists in responses). -/
def JVal.strings : JVal → List String
  | .arr xs => xs.filterMap (fun v => match v with | .str s => some s | _ => none)
  | _ => []

/-- First binding of key `k` in a dict, as Python `dict.__getitem__` sees it. -/
def dictGet : JDict → String → Option JVal
  | [], _ => none
  | (k1, v) :: rest, k => if k1 = k then some v else dictGet rest k

/-- Python `d.get(k, dflt)`. -/
def dictGetD (d : JDict) (k : String) (dflt : JVal) : JVal :=
  (dictGet d k).getD dflt

/-- Python `s.endswith(suffix)`. -/
def pyEndsWith (s suf : String) : Bool := suf.data.isSuffixOf s.data

/-- The whitespace characters removed by Python `str.strip()`. -/
def isPySpace (c : Char) : Bool :=
  c == ' ' || c == '\t' || c == '\n' || c == '\r' || c == '\x0b' || c == '\x0c'

/-- Python `s.strip()`: remove leading and trailing whitespace. -/
def pyStrip (s : String) : String :=
  ⟨((s.data.dropWhile isPySpace).reverse.dropWhile isPySpace).reverse⟩

/-- Python `d[k] = v`: update in place if the key exists, else append. -/
def dictSet (d : JDict) (k : String) (v : JVal) : JDict :=
  if d.any (fun kv => kv.1 = k) then
    d.map (fun kv => if kv.1 = k then (k, v) else kv)
  else d ++ [(k, v)]

/-- Network-level failures raised by `http.client` / the socket layer. -/
inductive NetExc where
  | connectionRefused
  | timedOut
deriving Repr, DecidableEq

/-- Python exceptions that can escape the client's methods. -/
inductive PyExc where
  /-- An `OSError` subclass propagated from the transport (e.g.
  `ConnectionRefusedError`, `socket.timeout`). -/
  | net (e : NetExc)
  /-- Models `json.JSONDecodeError` from `json.loads` on a malformed body. -/
  | jsonDecode
  /-- Models `AttributeError` from calling a `str` method on a non-string value. -/
  | attributeErr
  /-- The repository's own `BridgeError(msg)`; `payload` models the
  `data.get('error', data)` value interpolated into the message. -/
  | bridgeError (msg : String) (payload : JVal)
deriving Repr

/-- Whether an escaped exception is the repository's `BridgeError`. -/
def PyExc.isBridgeError : PyExc → Bool
  | .bridgeError _ _ => true
  | _ => false

/-- One HTTP request as issued by `http.client.HTTPConnection.request`. -/
structure Request where
  meth : String
  host : String
  port : Nat
  path : String
  body : Option JDict
deriving Repr

/-- What the transport does with one request: fail at the network level, or
deliver a status code and a body (`none` when the body is not valid JSON). -/
inductive TransportResult where
  | netFail (e : NetExc)
  | reply (status : Nat) (body : Option JDict)
deriving Repr

/-- The environment: how the network answers each request. -/
abbrev Oracle := Request → TransportResult

/-- Result of running one client call: the Python return value or escaped
exception, plus the requests issued, in order. -/
structure CallOut (α : Type) where
  result : Except PyExc α
  trace : List Request
deriving Repr

/-- Map over the result of a call, keeping its trace. -/
def CallOut.mapR {α β : Type} (c : CallOut α) (f : α → β) : CallOut β :=
  ⟨c.result.map f, c.trace⟩

/-- Shorthand for a GET request. -/
def mkGet (host : String) (port : Nat) (path : String) : Request :=
  ⟨"GET", host, port, path, none⟩

/-- Shorthand for a POST request with a JSON body. -/
def mkPost (host : String) (port : Nat) (path : String) (body : JDict) : Request :=
  ⟨"POST", host, port, path, some body⟩

/-! ## Module-level configuration (`agent_template.py` lines 26–29) -/

def BRIDGE_PORTS : List Nat := [3131, 3132, 3133, 3134]

def BRIDGE_HOST : String := "127.0.0.1"

def DEFAULT_TIMEOUT : Int := 300

/-! ## The client -/

/-- The `AgentBridge` object: its only attributes are `host` and `port`,
both assigned in `__init__` and never reassigned. -/
structure AgentBridge where
  host : String
  port : Nat
deriving Repr

namespace AgentBridge

/-- Embeds `_raw_get(self, port, path)`: GET with an explicit port, return the decoded
JSON body; no status/ok check, any failure escapes as the underlying
exception. -/
def «_raw_get» (host : String) (port : Nat) (path : String) (o : Oracle) :
    CallOut JDict :=
  match o (mkGet host port path) with
  | .netFail e => ⟨.error (.net e), [mkGet host port path]⟩
  | .reply _ none => ⟨.error .jsonDecode, [mkGet host port path]⟩
  | .reply _ (some d) => ⟨.ok d, [mkGet host port path]⟩

/-- The message of the `BridgeError` raised when discovery exhausts
`BRIDGE_PORTS` (the f-string of line 54, with the list rendered as Python
renders it). -/
def noBridgeMsg : String :=
  "No bridge found on ports [3131, 3132, 3133, 3134]. Is VS Code running with the extension?"

/-- The `for p in BRIDGE_PORTS` loop of `_discover_port`: probe each port with
`GET /health`, swallowing every exception, and return the first port whose
body has a truthy `ok`; raise `BridgeError` after the loop. -/
def discoverLoop (host : String) (o : Oracle) : List Nat → CallOut Nat
  | [] => ⟨.error (.bridgeError noBridgeMsg .null), []⟩
  | p :: ps =>
    match «_raw_get» host p "/health" o with
    | ⟨.ok d, tr⟩ =>
      if (dictGetD d "ok" .null).truthy then ⟨.ok p, tr⟩
      else ⟨(discoverLoop host o ps).result, tr ++ (discoverLoop host o ps).trace⟩
    | ⟨.error _, tr⟩ =>
      ⟨(discoverLoop host o ps).result, tr ++ (discoverLoop host o ps).trace⟩

/-- Embeds `_discover_port(self)` (lines 46–54). -/
def «_discover_port» (host : String) (o : Oracle) : CallOut Nat :=
  discoverLoop host o BRIDGE_PORTS

/-- Embeds `__init__(self, host, port)`: `self.port = port or self._discover_port()`,
so `None` and `0` (the falsy ints) both trigger discovery. -/
def «__init__» (host : String) (port : Option Nat) (o : Oracle) :
    CallOut AgentBridge :=
  match port with
  | some p =>
    if p ≠ 0 then ⟨.ok ⟨host, p⟩, []⟩
    else («_discover_port» host o).mapR (fun q => ⟨host, q⟩)
  | none => («_discover_port» host o).mapR (fun q => ⟨host, q⟩)

/-- Embeds `_get(self, path)` (lines 64–72): GET on `self.host:self.port`, decode the
body, raise `BridgeError` iff the decoded dict's `ok` is falsy AND the status
is ≥ 400; transport and JSON errors escape unwrapped. -/
def «_get» (b : AgentBridge) (path : String) (o : Oracle) : CallOut JDict :=
  match o (mkGet b.host b.port path) with
  | .netFail e => ⟨.error (.net e), [mkGet b.host b.port path]⟩
  | .reply _ none => ⟨.error .jsonDecode, [mkGet b.host b.port path]⟩
  | .reply status (some data) =>
    if (dictGetD data "ok" .null).truthy = false ∧ 400 ≤ status then
      ⟨.error (.bridgeError ("GET " ++ path ++ " failed")
        (dictGetD data "error" (.obj data))), [mkGet b.host b.port path]⟩
    else ⟨.ok data, [mkGet b.host b.port path]⟩

/-- Embeds `_post(self, path, body, timeout)` (lines 74–83): POST a JSON body, same
unwrap and raise condition as `_get`. -/
def «_post» (b : AgentBridge) (path : String) (body : JDict) (o : Oracle) :
    CallOut JDict :=
  match o (mkPost b.host b.port path body) with
  | .netFail e => ⟨.error (.net e), [mkPost b.host b.port path body]⟩
  | .reply _ none => ⟨.error .jsonDecode, [mkPost b.host b.port path body]⟩
  | .reply status (some data) =>
    if (dictGetD data "ok" .null).truthy = false ∧ 400 ≤ status then
      ⟨.error (.bridgeError ("POST " ++ path ++ " failed")
        (dictGetD data "error" (.obj data))), [mkPost b.host b.port path body]⟩
    else ⟨.ok data, [mkPost b.host b.port path body]⟩

/-! ### Request bodies

Python builds each body as a dict literal and then conditionally inserts the
truthy optional fields; insertion order is preserved by CPython dicts and by
`json.dumps`, so bodies are ordered association lists here. -/

/-- Body built by `prompt` (lines 122–125): always `prompt` and `timeout`,
then `model`, `system`, `context_files` only when truthy. -/
def promptBody (p model system : String) (timeout : Int)
    (context_files : Option (List String)) : JDict :=
  [("prompt", .str p), ("timeout", .num timeout)]
    ++ (if model ≠ "" then [("model", .str model)] else [])
    ++ (if system ≠ "" then [("system", .str system)] else [])
    ++ (match context_files with
        | some fs => if fs ≠ [] then [("context_files", .arr (fs.map .str))] else []
        | none => [])

/-- Body built by `copilot_task` (lines 147–154). -/
def copilotTaskBody (p : String) (auto_accept : Bool) (watch_secs timeout : Int)
    (context_files : Option (List String)) (model : String) : JDict :=
  [("prompt", .str p), ("auto_accept", .bool auto_accept),
   ("watch_secs", .num watch_secs), ("timeout", .num timeout)]
    ++ (match context_files with
        | some fs => if fs ≠ [] then [("context_files", .arr (fs.map .str))] else []
        | none => [])
    ++ (if model ≠ "" then [("model", .str model)] else [])

/-- Body built by `run_terminal` (lines 184–186): `cwd` only when truthy,
`timeout` only when capturing. -/
def runTerminalBody (command cwd : String) (capture_output : Bool)
    (timeout : Int) : JDict :=
  [("command", .str command), ("capture_output", .bool capture_output)]
    ++ (if cwd ≠ "" then [("cwd", .str cwd)] else [])
    ++ (if capture_output then [("timeout", .num timeout)] else [])

/-- Body built by `open_file` (lines 198–199): `line` only when nonzero. -/
def openFileBody (path : String) (line : Int) : JDict :=
  [("path", .str path)] ++ (if line ≠ 0 then [("line", .num line)] else [])

/-- Body built by `slack_post` (lines 264–265): `channel` only when truthy. -/
def slackPostBody (text channel : String) : JDict :=
  [("text", .str text)] ++ (if channel ≠ "" then [("channel", .str channel)] else [])

/-- Body built by `desktop_type` (lines 273–274). -/
def desktopTypeBody (app text window_title : String) (delay_ms : Int) : JDict :=
  [("app", .str app), ("text", .str text), ("delay_ms", .num delay_ms)]
    ++ (if window_title ≠ "" then [("window_title", .str window_title)] else [])

/-! ### Public methods

Each returns exactly what the Python method returns.  Several methods are
annotated in Python as returning `str`/`bool`/`list`, but actually return
`data.get(key, default)` uncoerced, so their embedded result type is `JVal`. -/

def health (b : AgentBridge) (o : Oracle) : CallOut JDict :=
  «_get» b "/health" o

def workspace_info (b : AgentBridge) (o : Oracle) : CallOut JDict :=
  «_get» b "/workspace-info" o

def log (b : AgentBridge) (o : Oracle) : CallOut JVal :=
  («_get» b "/log" o).mapR (fun d => dictGetD d "entries" (.arr []))

def prompt (b : AgentBridge) (p model system : String) (timeout : Int)
    (context_files : Option (List String)) (o : Oracle) : CallOut JVal :=
  («_post» b "/prompt" (promptBody p model system timeout context_files) o).mapR
    (fun d => dictGetD d "text" (.str ""))

def copilot_task (b : AgentBridge) (p : String) (auto_accept : Bool)
    (watch_secs timeout : Int) (context_files : Option (List String))
    (model : String) (o : Oracle) : CallOut JDict :=
  «_post» b "/copilot-task"
    (copilotTaskBody p auto_accept watch_secs timeout context_files model) o

def read_file (b : AgentBridge) (path : String) (o : Oracle) : CallOut JVal :=
  («_get» b ("/read-file?path=" ++ path) o).mapR
    (fun d => dictGetD d "content" (.str ""))

def write_file (b : AgentBridge) (path content : String) (create_dirs : Bool)
    (o : Oracle) : CallOut JVal :=
  («_post» b "/write-file"
      [("path", .str path), ("content", .str content),
       ("create_dirs", .bool create_dirs)] o).mapR
    (fun d => dictGetD d "bytes" (.num 0))

def apply_edit (b : AgentBridge) (path old_text new_text : String) (o : Oracle) :
    CallOut JVal :=
  («_post» b "/apply-edit"
      [("path", .str path), ("old_text", .str old_text),
       ("new_text", .str new_text)] o).mapR
    (fun d => dictGetD d "ok" (.bool false))

def list_dir (b : AgentBridge) (path : String) (o : Oracle) : CallOut JVal :=
  («_get» b ("/list-dir?path=" ++ path) o).mapR
    (fun d => dictGetD d "entries" (.arr []))

def run_terminal (b : AgentBridge) (command cwd : String)
    (capture_output : Bool) (timeout : Int) (o : Oracle) : CallOut JDict :=
  «_post» b "/run-terminal" (runTerminalBody command cwd capture_output timeout) o

/-- Embeds `run_and_capture` (lines 189–192): run with `capture_output=True` and
return `result.get("stdout", "").strip()`; `.strip()` on a non-string
response value raises `AttributeError`. -/
def run_and_capture (b : AgentBridge) (command cwd : String) (timeout : Int)
    (o : Oracle) : CallOut String :=
  let r := run_terminal b command cwd true timeout o
  ⟨r.result.bind (fun d =>
      match dictGetD d "stdout" (.str "") with
      | .str s => .ok (pyStrip s)
      | _ => .error .attributeErr),
   r.trace⟩

def open_file (b : AgentBridge) (path : String) (line : Int) (o : Oracle) :
    CallOut JVal :=
  («_post» b "/open-file" (openFileBody path line) o).mapR
    (fun d => dictGetD d "ok" (.bool false))

def diagnostics (b : AgentBridge) (path : String) (o : Oracle) : CallOut JDict :=
  «_get» b ("/diagnostics" ++ (if path ≠ "" then "?path=" ++ path else "")) o

def exec_command (b : AgentBridge) (command : String) (args : List JVal)
    (o : Oracle) : CallOut JVal :=
  («_post» b "/exec-command"
      [("command", .str command), ("args", .arr args)] o).mapR
    (fun d => dictGetD d "result" .null)

def show_message (b : AgentBridge) (message level : String) (o : Oracle) :
    CallOut JVal :=
  («_post» b "/show-message"
      [("message", .str message), ("level", .str level)] o).mapR
    (fun d => dictGetD d "ok" (.bool false))

def keep_going (b : AgentBridge) (o : Oracle) : CallOut JVal :=
  («_post» b "/keep-going" [] o).mapR
    (fun d => dictGetD d "commands_run" (.arr []))

def auto_dismiss (b : AgentBridge) (active : Bool) (interval_ms : Int)
    (o : Oracle) : CallOut JVal :=
  («_post» b "/auto-dismiss"
      [("active", .bool active), ("interval_ms", .num interval_ms)] o).mapR
    (fun d => dictGetD d "active" (.bool active))

def auto_dismiss_status (b : AgentBridge) (o : Oracle) : CallOut JVal :=
  («_get» b "/auto-dismiss" o).mapR
    (fun d => dictGetD d "active" (.bool false))

def watch_start (b : AgentBridge) (label : String) (o : Oracle) : CallOut JVal :=
  («_post» b "/watch-start" [("label", .str label)] o).mapR
    (fun d => dictGetD d "watch_id" (.str ""))

def watch_result (b : AgentBridge) (watch_id : String) (o : Oracle) :
    CallOut JVal :=
  («_get» b ("/watch-result?id=" ++ watch_id) o).mapR
    (fun d => dictGetD d "files" (.arr []))

def changes_since (b : AgentBridge) (timestamp_ms : Int) (o : Oracle) :
    CallOut JVal :=
  («_get» b ("/changes-since?ts=" ++ toString timestamp_ms) o).mapR
    (fun d => dictGetD d "files" (.arr []))

def pending_approvals (b : AgentBridge) (o : Oracle) : CallOut JVal :=
  («_get» b "/pending-approvals" o).mapR
    (fun d => dictGetD d "files" (.arr []))

def accept_edits (b : AgentBridge) (o : Oracle) : CallOut JVal :=
  («_post» b "/accept-edits" [] o).mapR
    (fun d => dictGetD d "ok" (.bool false))

def reject_edits (b : AgentBridge) (o : Oracle) : CallOut JVal :=
  («_post» b "/reject-edits" [] o).mapR
    (fun d => dictGetD d "ok" (.bool false))

def slack_post (b : AgentBridge) (text channel : String) (o : Oracle) :
    CallOut JVal :=
  («_post» b "/slack-post" (slackPostBody text channel) o).mapR
    (fun d => dictGetD d "ok" (.bool false))

def desktop_type (b : AgentBridge) (app text window_title : String)
    (delay_ms : Int) (o : Oracle) : CallOut JVal :=
  («_post» b "/desktop-type" (desktopTypeBody app text window_title delay_ms) o).mapR
    (fun d => dictGetD d "ok" (.bool false))

/-- The `for f in result["files_changed"]` loop of `ask_then_run`
(lines 292–298): run the first file ending in `.py` with python, or in `.js`
with node, and stop; files with other suffixes are skipped; when no file
matches, `output` keeps its initial value `""` and nothing is run. -/
def runFirst (b : AgentBridge) (o : Oracle) : List String → CallOut String
  | [] => ⟨.ok "", []⟩
  | f :: fs =>
    if pyEndsWith f ".py" then
      run_and_capture b ("python \"" ++ f ++ "\"") "" 120 o
    else if pyEndsWith f ".js" then
      run_and_capture b ("node \"" ++ f ++ "\"") "" 120 o
    else runFirst b o fs

/-- The Slack summary text of `ask_then_run` (lines 301–304): the changed
files joined with `", "` (or `none` when that is empty), plus the first 500
characters of the captured output when it is non-empty. -/
def askSlackMsg (result : JDict) (output : String) : String :=
  let joined := String.intercalate ", " (dictGetD result "files_changed" (.arr [])).strings
  let msg0 := "Task complete.\nChanged: " ++ (if joined ≠ "" then joined else "none")
  if output ≠ "" then msg0 ++ "\nOutput:\n```\n" ++ output.take 500 ++ "\n```"
  else msg0

/-- Embeds `ask_then_run` (lines 279–308): `copilot_task` with `auto_accept=True`;
then, when `run_result` is true and `files_changed` is truthy, the
`runFirst` loop; then, when `slack_report` is true, one Slack post; finally
`result["run_output"] = output` and return the dict.  Any exception from a
step propagates and aborts the remaining steps. -/
def ask_then_run (b : AgentBridge) (task : String)
    (run_result slack_report : Bool) (o : Oracle) : CallOut JDict :=
  match copilot_task b task true 60 300 none "" o with
  | ⟨.error e, tr1⟩ => ⟨.error e, tr1⟩
  | ⟨.ok result, tr1⟩ =>
    match (if run_result ∧ (dictGetD result "files_changed" .null).truthy then
        runFirst b o (dictGetD result "files_changed" .null).strings
      else ⟨.ok "", []⟩ : CallOut String) with
    | ⟨.error e, tr2⟩ => ⟨.error e, tr1 ++ tr2⟩
    | ⟨.ok output, tr2⟩ =>
      if slack_report then
        match slack_post b (askSlackMsg result output) "" o with
        | ⟨.error e, tr3⟩ => ⟨.error e, tr1 ++ tr2 ++ tr3⟩
        | ⟨.ok _, tr3⟩ =>
          ⟨.ok (dictSet result "run_output" (.str output)), tr1 ++ tr2 ++ tr3⟩
      else ⟨.ok (dictSet result "run_output" (.str output)), tr1 ++ tr2⟩

end AgentBridge

/-- One invocation of a public `AgentBridge` method, with its arguments.
There is one constructor per public method of the class (everything not
prefixed with an underscore, `__init__` aside). -/
inductive MethodCall where
  | health
  | workspace_info
  | log
  | prompt (p model system : String) (timeout : Int) (context_files : Option (List String))
  | copilot_task (p : String) (auto_accept : Bool) (watch_secs timeout : Int)
      (context_files : Option (List String)) (model : String)
  | read_file (path : String)
  | write_file (path content : String) (create_dirs : Bool)
  | apply_edit (path old_text new_text : String)
  | list_dir (path : String)
  | run_terminal (command cwd : String) (capture_output : Bool) (timeout : Int)
  | run_and_capture (command cwd : String) (timeout : Int)
  | open_file (path : String) (line : Int)
  | diagnostics (path : String)
  | exec_command (command : String) (args : List JVal)
  | show_message (message level : String)
  | keep_going
  | auto_dismiss (active : Bool) (interval_ms : Int)
  | auto_dismiss_status
  | watch_start (label : String)
  | watch_result (watch_id : String)
  | changes_since (timestamp_ms : Int)
  | pending_approvals
  | accept_edits
  | reject_edits
  | slack_post (text channel : String)
  | desktop_type (app text window_title : String) (delay_ms : Int)
  | ask_then_run (task : String) (run_result slack_report : Bool)

/-- Whether the invocation is of the multi-request pipeline `ask_then_run`. -/
def MethodCall.isAskThenRun : MethodCall → Bool
  | .ask_then_run _ _ _ => true
  | _ => false

/-- Run one public method invocation on an `AgentBridge` object.  The second
component is the object after the call: no method body contains an attribute
assignment, so the object is returned as it was read.  Results of all methods
are injected into `JVal` (`.obj` for dict results, `.str` for string results). -/
def callMethodS (mc : MethodCall) (b : AgentBridge) (o : Oracle) :
    CallOut JVal × AgentBridge :=
  match mc with
  | .health => ((AgentBridge.health b o).mapR .obj, b)
  | .workspace_info => ((AgentBridge.workspace_info b o).mapR .obj, b)
  | .log => (AgentBridge.log b o, b)
  | .prompt p model system timeout cf => (AgentBridge.prompt b p model system timeout cf o, b)
  | .copilot_task p aa ws t cf model =>
      ((AgentBridge.copilot_task b p aa ws t cf model o).mapR .obj, b)
  | .read_file path => (AgentBridge.read_file b path o, b)
  | .write_file path content cd => (AgentBridge.write_file b path content cd o, b)
  | .apply_edit path ot nt => (AgentBridge.apply_edit b path ot nt o, b)
  | .list_dir path => (AgentBridge.list_dir b path o, b)
  | .run_terminal c cwd cap t => ((AgentBridge.run_terminal b c cwd cap t o).mapR .obj, b)
  | .run_and_capture c cwd t => ((AgentBridge.run_and_capture b c cwd t o).mapR .str, b)
  | .open_file path line => (AgentBridge.open_file b path line o, b)
  | .diagnostics path => ((AgentBridge.diagnostics b path o).mapR .obj, b)
  | .exec_command c args => (AgentBridge.exec_command b c args o, b)
  | .show_message m l => (AgentBridge.show_message b m l o, b)
  | .keep_going => (AgentBridge.keep_going b o, b)
  | .auto_dismiss a i => (AgentBridge.auto_dismiss b a i o, b)
  | .auto_dismiss_status => (AgentBridge.auto_dismiss_status b o, b)
  | .watch_start label => (AgentBridge.watch_start b label o, b)
  | .watch_result wid => (AgentBridge.watch_result b wid o, b)
  | .changes_since ts => (AgentBridge.changes_since b ts o, b)
  | .pending_approvals => (AgentBridge.pending_approvals b o, b)
  | .accept_edits => (AgentBridge.accept_edits b o, b)
  | .reject_edits => (AgentBridge.reject_edits b o, b)
  | .slack_post text ch => (AgentBridge.slack_post b text ch o, b)
  | .desktop_type app text wt d => (AgentBridge.desktop_type b app text wt d o, b)
  | .ask_then_run task rr sr => ((AgentBridge.ask_then_run b task rr sr o).mapR .obj, b)

/-- Claim-side reading of one discovery probe: port `p` qualifies when
`GET /health` on it comes back as parseable JSON whose `ok` field is truthy;
a probe that fails at the network level, returns a malformed body, or answers
without truthy `ok` does not qualify. -/
def probeOk (host : String) (o : Oracle) (p : Nat) : Bool :=
  match o (mkGet host p "/health") with
  | .reply _ (some d) => (dictGetD d "ok" .null).truthy
  | _ => false

/-! ## Helper lemmas about the transport wrappers -/

theorem get_trace_eq (b : AgentBridge) (path : String) (o : Oracle) :
    (AgentBridge.«_get» b path o).trace = [mkGet b.host b.port path] := by
  unfold AgentBridge.«_get»
  cases o (mkGet b.host b.port path) with
  | netFail e => rfl
  | reply status body =>
    cases body with
    | none => rfl
    | some d =>
      dsimp only
      split <;> rfl

theorem post_trace_eq (b : AgentBridge) (path : String) (body : JDict) (o : Oracle) :
    (AgentBridge.«_post» b path body o).trace = [mkPost b.host b.port path body] := by
  unfold AgentBridge.«_post»
  cases o (mkPost b.host b.port path body) with
  | netFail e => rfl
  | reply status rb =>
    cases rb with
    | none => rfl
    | some d =>
      dsimp only
      split <;> rfl

theorem get_result_of_reply (b : AgentBridge) (path : String) (status : Nat)
    (d : JDict) (o : Oracle)
    (h : o (mkGet b.host b.port path) = .reply status (some d)) :
    (AgentBridge.«_get» b path o).result =
      if (dictGetD d "ok" .null).truthy = false ∧ 400 ≤ status then
        .error (.bridgeError ("GET " ++ path ++ " failed")
          (dictGetD d "error" (.obj d)))
      else .ok d := by
  unfold AgentBridge.«_get»
  rw [h]
  by_cases hc : (dictGetD d "ok" .null).truthy = false ∧ 400 ≤ status
  · simp [hc]
  · simp [hc]

theorem post_result_of_reply (b : AgentBridge) (path : String) (body : JDict)
    (status : Nat) (d : JDict) (o : Oracle)
    (h : o (mkPost b.host b.port path body) = .reply status (some d)) :
    (AgentBridge.«_post» b path body o).result =
      if (dictGetD d "ok" .null).truthy = false ∧ 400 ≤ status then
        .error (.bridgeError ("POST " ++ path ++ " failed")
          (dictGetD d "error" (.obj d)))
      else .ok d := by
  unfold AgentBridge.«_post»
  rw [h]
  by_cases hc : (dictGetD d "ok" .null).truthy = false ∧ 400 ≤ status
  · simp [hc]
  · simp [hc]

theorem raw_get_result_eq (host : String) (p : Nat) (o : Oracle) :
    (AgentBridge.«_raw_get» host p "/health" o).result =
      match o (mkGet host p "/health") with
      | .netFail e => .error (.net e)
      | .reply _ none => .error .jsonDecode
      | .reply _ (some d) => .ok d := by
  unfold AgentBridge.«_raw_get»
  cases o (mkGet host p "/health") with
  | netFail e => rfl
  | reply status body => cases body <;> rfl

theorem raw_get_trace_eq (host : String) (p : Nat) (o : Oracle) :
    (AgentBridge.«_raw_get» host p "/health" o).trace = [mkGet host p "/health"] := by
  unfold AgentBridge.«_raw_get»
  cases o (mkGet host p "/health") with
  | netFail e => rfl
  | reply status body => cases body <;> rfl

/-- Full characterization of the discovery loop over an arbitrary port list:
the result is the first port that probes OK (else the `BridgeError`), and the
trace is one `/health` GET per failing prefix port plus one for the found
port. -/
theorem discoverLoop_eq (host : String) (o : Oracle) (ps : List Nat) :
    AgentBridge.discoverLoop host o ps =
      ⟨(match ps.find? (probeOk host o) with
        | some p => .ok p
        | none => .error (.bridgeError AgentBridge.noBridgeMsg .null)),
       ((ps.takeWhile (fun p => !(probeOk host o p)))
          ++ (ps.find? (probeOk host o)).toList).map
         (fun p => mkGet host p "/health")⟩ := by
  induction ps with
  | nil => rfl
  | cons p rest ih =>
    rw [AgentBridge.discoverLoop]
    cases ho : o (mkGet host p "/health") with
    | netFail e =>
      have hp : probeOk host o p = false := by simp [probeOk, ho]
      simp [AgentBridge.«_raw_get», ho, ih, List.find?_cons, List.takeWhile_cons, hp]
    | reply status body =>
      cases body with
      | none =>
        have hp : probeOk host o p = false := by simp [probeOk, ho]
        simp [AgentBridge.«_raw_get», ho, ih, List.find?_cons, List.takeWhile_cons, hp]
      | some d =>
        by_cases ht : (dictGetD d "ok" .null).truthy = true
        · have hp : probeOk host o p = true := by simp [probeOk, ho, ht]
          simp [AgentBridge.«_raw_get», ho, ht, List.find?_cons, List.takeWhile_cons, hp]
        · have hp : probeOk host o p = false := by
            simp [probeOk, ho]
            simpa using ht
          simp [AgentBridge.«_raw_get», ho, ih, List.find?_cons, List.takeWhile_cons, hp,
            Bool.not_eq_true] at ht ⊢
          simp [ht]

theorem get_result_200 (b : AgentBridge) (path : String) (d : JDict) (o : Oracle)
    (h : o (mkGet b.host b.port path) = .reply 200 (some d)) :
    (AgentBridge.«_get» b path o).result = .ok d := by
  rw [get_result_of_reply b path 200 d o h]
  simp

theorem post_result_200 (b : AgentBridge) (path : String) (body : JDict)
    (d : JDict) (o : Oracle)
    (h : o (mkPost b.host b.port path body) = .reply 200 (some d)) :
    (AgentBridge.«_post» b path body o).result = .ok d := by
  rw [post_result_of_reply b path body 200 d o h]
  simp

/-- The failing prefix of a scan plus the found element is a sublist of the
scanned list. -/
theorem takeWhile_append_find_sublist {α : Type} (l : List α) (pr : α → Bool) :
    List.Sublist (l.takeWhile (fun a => !(pr a)) ++ (l.find? pr).toList) l := by
  induction l with
  | nil => simp
  | cons a t ih =>
    by_cases ha : pr a = true
    · simp [List.takeWhile_cons, List.find?_cons, ha]
    · have ha2 : pr a = false := by simpa using ha
      simp only [List.takeWhile_cons, List.find?_cons, ha2, Bool.not_false, if_true,
        Bool.false_eq_true, if_false, List.cons_append]
      exact List.Sublist.cons₂ a ih

/-! ## C1 and C2 -/

/-- Claim C1: the claim says every public method raises only `BridgeError` on any
transport failure, malformed body, or non-success response.  Evaluated at
concrete failing inputs, `health()` propagates the transport's own
`ConnectionRefusedError` and `json.JSONDecodeError` unwrapped (there is no
try/except in `_get`/`_post`), and a 404 response whose body has a truthy
`ok` is returned without raising at all — contradicting the claim and the
class docstring "All methods raise BridgeError on HTTP/network failure". -/
theorem bridge_error_not_uniform :
    (AgentBridge.health ⟨BRIDGE_HOST, 3131⟩ (fun _ => .netFail .connectionRefused)).result
        = .error (.net .connectionRefused)
    ∧ (PyExc.net .connectionRefused).isBridgeError = false
    ∧ (AgentBridge.health ⟨BRIDGE_HOST, 3131⟩ (fun _ => .reply 200 none)).result
        = .error .jsonDecode
    ∧ PyExc.jsonDecode.isBridgeError = false
    ∧ (AgentBridge.health ⟨BRIDGE_HOST, 3131⟩
        (fun _ => .reply 404 (some [("ok", .bool true)]))).result
        = .ok [("ok", .bool true)] :=
  ⟨rfl, rfl, rfl, rfl, rfl⟩

/-- Claim C2: constructed without a port, the client probes 3131, 3132, 3133, 3134
in that order with `GET /health`, returns a bridge on the first port whose
JSON body has a truthy `ok` (skipping ports that fail or answer without it),
and raises `BridgeError` when none of the four qualifies. -/
theorem port_discovery_first_ok (host : String) (o : Oracle) :
    (AgentBridge.«__init__» host none o).result =
      (match BRIDGE_PORTS.find? (probeOk host o) with
       | some p => .ok ⟨host, p⟩
       | none => .error (.bridgeError AgentBridge.noBridgeMsg .null))
    ∧ (AgentBridge.«__init__» host none o).trace =
      ((BRIDGE_PORTS.takeWhile (fun p => !(probeOk host o p)))
         ++ (BRIDGE_PORTS.find? (probeOk host o)).toList).map
        (fun p => mkGet host p "/health") := by
  unfold AgentBridge.«__init__» AgentBridge.«_discover_port»
  rw [discoverLoop_eq]
  cases hf : BRIDGE_PORTS.find? (probeOk host o) <;>
    simp [CallOut.mapR, hf, Except.map]

/-! ## C5: the exact raise condition of `_get` and `_post` -/

/-- Claim C5: in `_get` and `_post`, `BridgeError` is raised if and only if the
decoded body's `ok` is falsy AND the status is at least 400; whenever that
conjunction fails (truthy `ok`, or status below 400) the decoded dict is
returned unchanged. -/
theorem raise_iff_falsy_and_4xx (b : AgentBridge) (path : String) (body : JDict)
    (status : Nat) (d : JDict) (o : Oracle)
    (hg : o (mkGet b.host b.port path) = .reply status (some d))
    (hp : o (mkPost b.host b.port path body) = .reply status (some d)) :
    ((∃ m pl, (AgentBridge.«_get» b path o).result = .error (.bridgeError m pl))
        ↔ ((dictGetD d "ok" .null).truthy = false ∧ 400 ≤ status))
    ∧ (¬((dictGetD d "ok" .null).truthy = false ∧ 400 ≤ status)
        → (AgentBridge.«_get» b path o).result = .ok d)
    ∧ ((∃ m pl, (AgentBridge.«_post» b path body o).result = .error (.bridgeError m pl))
        ↔ ((dictGetD d "ok" .null).truthy = false ∧ 400 ≤ status))
    ∧ (¬((dictGetD d "ok" .null).truthy = false ∧ 400 ≤ status)
        → (AgentBridge.«_post» b path body o).result = .ok d) := by
  have hgr := get_result_of_reply b path status d o hg
  have hpr := post_result_of_reply b path body status d o hp
  by_cases hc : (dictGetD d "ok" .null).truthy = false ∧ 400 ≤ status
  · rw [hgr, hpr, if_pos hc, if_pos hc]
    refine ⟨⟨fun _ => hc, fun _ => ⟨_, _, rfl⟩⟩, fun hn => absurd hc hn,
      ⟨fun _ => hc, fun _ => ⟨_, _, rfl⟩⟩, fun hn => absurd hc hn⟩
  · rw [hgr, hpr, if_neg hc, if_neg hc]
    refine ⟨⟨fun h => ?_, fun h => absurd h hc⟩, fun _ => rfl,
      ⟨fun h => ?_, fun h => absurd h hc⟩, fun _ => rfl⟩
    · obtain ⟨m, pl, h⟩ := h
      exact absurd h (by simp)
    · obtain ⟨m, pl, h⟩ := h
      exact absurd h (by simp)

/-- Witness for C5: a 500 response whose body carries `ok: true` is returned
without raising, and a 200 response whose body carries `ok: false` is also
returned without raising. -/
theorem raise_iff_falsy_and_4xx_witness :
    (AgentBridge.«_get» ⟨BRIDGE_HOST, 3131⟩ "/health"
        (fun _ => .reply 500 (some [("ok", .bool true)]))).result
      = .ok [("ok", .bool true)]
    ∧ (AgentBridge.«_post» ⟨BRIDGE_HOST, 3131⟩ "/accept-edits" []
        (fun _ => .reply 200 (some [("ok", .bool false)]))).result
      = .ok [("ok", .bool false)] :=
  ⟨(raise_iff_falsy_and_4xx ⟨BRIDGE_HOST, 3131⟩ "/health" [] 500
      [("ok", .bool true)] (fun _ => .reply 500 (some [("ok", .bool true)]))
      rfl rfl).2.1 (by decide),
   (raise_iff_falsy_and_4xx ⟨BRIDGE_HOST, 3131⟩ "/accept-edits" [] 200
      [("ok", .bool false)] (fun _ => .reply 200 (some [("ok", .bool false)]))
      rfl rfl).2.2.2 (by decide)⟩

/-! ## Helper lemmas about `callMethodS` -/

theorem callMethodS_snd (mc : MethodCall) (b : AgentBridge) (o : Oracle) :
    (callMethodS mc b o).2 = b := by
  cases mc <;> rfl

theorem bridge_eq_of_fields (b1 b2 : AgentBridge)
    (hh : b1.host = b2.host) (hp : b1.port = b2.port) : b1 = b2 := by
  cases b1; cases b2; simp_all

theorem callMethodS_trace_single (mc : MethodCall) (b : AgentBridge) (o : Oracle)
    (h : mc.isAskThenRun = false) :
    (callMethodS mc b o).1.trace.length = 1
    ∧ ∀ r ∈ (callMethodS mc b o).1.trace, r.host = b.host ∧ r.port = b.port := by
  cases mc <;>
    simp_all [callMethodS, MethodCall.isAskThenRun, CallOut.mapR,
      AgentBridge.health, AgentBridge.workspace_info, AgentBridge.log,
      AgentBridge.prompt, AgentBridge.copilot_task, AgentBridge.read_file,
      AgentBridge.write_file, AgentBridge.apply_edit, AgentBridge.list_dir,
      AgentBridge.run_terminal, AgentBridge.run_and_capture,
      AgentBridge.open_file, AgentBridge.diagnostics, AgentBridge.exec_command,
      AgentBridge.show_message, AgentBridge.keep_going, AgentBridge.auto_dismiss,
      AgentBridge.auto_dismiss_status, AgentBridge.watch_start,
      AgentBridge.watch_result, AgentBridge.changes_since,
      AgentBridge.pending_approvals, AgentBridge.accept_edits,
      AgentBridge.reject_edits, AgentBridge.slack_post, AgentBridge.desktop_type,
      get_trace_eq, post_trace_eq, mkGet, mkPost]

theorem callMethodS_paths_nodup_single (mc : MethodCall) (b : AgentBridge)
    (o : Oracle) (h : mc.isAskThenRun = false) :
    ((callMethodS mc b o).1.trace.map (fun r => r.path)).Nodup := by
  obtain ⟨hlen, -⟩ := callMethodS_trace_single mc b o h
  obtain ⟨r, hr⟩ := List.length_eq_one.mp hlen
  rw [hr]
  simp

theorem copilot_task_trace (b : AgentBridge) (p : String) (aa : Bool)
    (ws t : Int) (cf : Option (List String)) (m : String) (o : Oracle) :
    (AgentBridge.copilot_task b p aa ws t cf m o).trace
      = [mkPost b.host b.port "/copilot-task" (AgentBridge.copilotTaskBody p aa ws t cf m)] :=
  post_trace_eq b "/copilot-task" (AgentBridge.copilotTaskBody p aa ws t cf m) o

theorem run_and_capture_trace (b : AgentBridge) (c cwd : String) (t : Int)
    (o : Oracle) :
    (AgentBridge.run_and_capture b c cwd t o).trace
      = [mkPost b.host b.port "/run-terminal" (AgentBridge.runTerminalBody c cwd true t)] :=
  post_trace_eq b "/run-terminal" (AgentBridge.runTerminalBody c cwd true t) o

theorem slack_post_trace (b : AgentBridge) (text channel : String) (o : Oracle) :
    (AgentBridge.slack_post b text channel o).trace
      = [mkPost b.host b.port "/slack-post" (AgentBridge.slackPostBody text channel)] :=
  post_trace_eq b "/slack-post" (AgentBridge.slackPostBody text channel) o

/-- The file loop issues no request, or exactly one `POST /run-terminal`. -/
theorem runFirst_trace_shape (b : AgentBridge) (o : Oracle) (fs : List String) :
    (AgentBridge.runFirst b o fs).trace = []
    ∨ ∃ bd, (AgentBridge.runFirst b o fs).trace
        = [mkPost b.host b.port "/run-terminal" bd] := by
  induction fs with
  | nil => exact Or.inl rfl
  | cons f fs ih =>
    rw [AgentBridge.runFirst]
    by_cases hpy : pyEndsWith f ".py" = true
    · right
      exact ⟨_, by rw [if_pos hpy]; exact run_and_capture_trace b _ "" 120 o⟩
    · rw [if_neg hpy]
      by_cases hjs : pyEndsWith f ".js" = true
      · right
        exact ⟨_, by rw [if_pos hjs]; exact run_and_capture_trace b _ "" 120 o⟩
      · rw [if_neg hjs]
        exact ih

/-- The trace of `ask_then_run`: the `/copilot-task` request, then at most one
`/run-terminal` request, then at most one `/slack-post` request. -/
theorem ask_trace_shape (b : AgentBridge) (task : String) (rr sr : Bool)
    (o : Oracle) :
    ∃ t2 t3 : List Request,
      (AgentBridge.ask_then_run b task rr sr o).trace
          = mkPost b.host b.port "/copilot-task"
              (AgentBridge.copilotTaskBody task true 60 300 none "") :: (t2 ++ t3)
        ∧ (t2 = [] ∨ ∃ bd, t2 = [mkPost b.host b.port "/run-terminal" bd])
        ∧ (t3 = [] ∨ ∃ bd, t3 = [mkPost b.host b.port "/slack-post" bd]) := by
  have hct := copilot_task_trace b task true 60 300 none "" o
  unfold AgentBridge.ask_then_run
  split
  next e tr1 heq =>
    have h1 : tr1 = [mkPost b.host b.port "/copilot-task"
        (AgentBridge.copilotTaskBody task true 60 300 none "")] := by
      have h := congrArg CallOut.trace heq
      rw [hct] at h
      exact h.symm
    exact ⟨[], [], by simp [h1], Or.inl rfl, Or.inl rfl⟩
  next result tr1 heq =>
    have h1 : tr1 = [mkPost b.host b.port "/copilot-task"
        (AgentBridge.copilotTaskBody task true 60 300 none "")] := by
      have h := congrArg CallOut.trace heq
      rw [hct] at h
      exact h.symm
    split
    next e tr2 heq2 =>
      have hshape : tr2 = [] ∨ ∃ bd, tr2 = [mkPost b.host b.port "/run-terminal" bd] := by
        have h2 : tr2 = (if rr = true ∧ (dictGetD result "files_changed" JVal.null).truthy = true then
            AgentBridge.runFirst b o (dictGetD result "files_changed" JVal.null).strings
          else ⟨Except.ok "", []⟩).trace := (congrArg CallOut.trace heq2).symm
        rw [h2]
        split
        · exact runFirst_trace_shape b o _
        · exact Or.inl rfl
      exact ⟨tr2, [], by simp [h1], hshape, Or.inl rfl⟩
    next output tr2 heq2 =>
      have hshape : tr2 = [] ∨ ∃ bd, tr2 = [mkPost b.host b.port "/run-terminal" bd] := by
        have h2 : tr2 = (if rr = true ∧ (dictGetD result "files_changed" JVal.null).truthy = true then
            AgentBridge.runFirst b o (dictGetD result "files_changed" JVal.null).strings
          else ⟨Except.ok "", []⟩).trace := (congrArg CallOut.trace heq2).symm
        rw [h2]
        split
        · exact runFirst_trace_shape b o _
        · exact Or.inl rfl
      by_cases hsr : sr = true
      · rw [if_pos hsr]
        split
        next e tr3 heq3 =>
          have h3 : tr3 = [mkPost b.host b.port "/slack-post"
              (AgentBridge.slackPostBody (AgentBridge.askSlackMsg result output) "")] := by
            have h := congrArg CallOut.trace heq3
            rw [slack_post_trace] at h
            exact h.symm
          exact ⟨tr2, tr3, by simp [h1], hshape, Or.inr ⟨_, h3⟩⟩
        next u tr3 heq3 =>
          have h3 : tr3 = [mkPost b.host b.port "/slack-post"
              (AgentBridge.slackPostBody (AgentBridge.askSlackMsg result output) "")] := by
            have h := congrArg CallOut.trace heq3
            rw [slack_post_trace] at h
            exact h.symm
          exact ⟨tr2, tr3, by simp [h1], hshape, Or.inr ⟨_, h3⟩⟩
      · rw [if_neg hsr]
        exact ⟨tr2, [], by simp [h1], hshape, Or.inl rfl⟩

/-! ## C4: round trips per invocation -/

/-- Claim C4 is false as stated: a single invocation of the public method
`ask_then_run` (with a server that reports a changed `.py` file) performs
three HTTP round trips, not one. -/
theorem one_round_trip_counterexample :
    (AgentBridge.ask_then_run ⟨BRIDGE_HOST, 3131⟩ "t" true true
        (fun _ => .reply 200 (some [("ok", .bool true),
          ("files_changed", .arr [.str "a.py"]),
          ("stdout", .str "hi")]))).trace.length = 3
    ∧ (3 : Nat) ≠ 1 :=
  ⟨by decide, by decide⟩

/-- Claim C4 (amended): every public method other than `ask_then_run` performs
exactly one blocking HTTP round trip per invocation, and every request of
every method goes to the object's host and port; `ask_then_run` performs
between one and three round trips. -/
theorem one_round_trip_per_call (mc : MethodCall) (b : AgentBridge) (o : Oracle) :
    (mc.isAskThenRun = false → (callMethodS mc b o).1.trace.length = 1)
    ∧ (mc.isAskThenRun = true →
        1 ≤ (callMethodS mc b o).1.trace.length
        ∧ (callMethodS mc b o).1.trace.length ≤ 3)
    ∧ (∀ r ∈ (callMethodS mc b o).1.trace, r.host = b.host ∧ r.port = b.port) := by
  refine ⟨fun h => (callMethodS_trace_single mc b o h).1, ?_, ?_⟩
  · intro h
    cases mc
    case ask_then_run task rr sr =>
      obtain ⟨t2, t3, htr, h2, h3⟩ := ask_trace_shape b task rr sr o
      have ht : (callMethodS (.ask_then_run task rr sr) b o).1.trace
          = (AgentBridge.ask_then_run b task rr sr o).trace := rfl
      rw [ht, htr]
      rcases h2 with rfl | ⟨bd2, rfl⟩ <;> rcases h3 with rfl | ⟨bd3, rfl⟩ <;> simp
    all_goals simp [MethodCall.isAskThenRun] at h
  · intro r hr
    cases mc
    case ask_then_run task rr sr =>
      obtain ⟨t2, t3, htr, h2, h3⟩ := ask_trace_shape b task rr sr o
      have ht : (callMethodS (.ask_then_run task rr sr) b o).1.trace
          = (AgentBridge.ask_then_run b task rr sr o).trace := rfl
      rw [ht, htr] at hr
      rcases h2 with rfl | ⟨bd2, rfl⟩ <;> rcases h3 with rfl | ⟨bd3, rfl⟩ <;>
        simp only [List.mem_cons, List.mem_append, List.mem_singleton,
          List.not_mem_nil, or_false, List.nil_append, List.append_nil] at hr <;>
        rcases hr with rfl | hr <;> try (first | rfl | exact ⟨rfl, rfl⟩)
      all_goals (rcases hr with rfl | rfl <;> exact ⟨rfl, rfl⟩)
    all_goals exact (callMethodS_trace_single _ b o (by rfl)).2 r hr

/-- Closed witness for the amended C4: `health()` makes exactly one round
trip, and the pipeline stays within its one-to-three bound. -/
theorem one_round_trip_per_call_witness :
    (callMethodS .health ⟨BRIDGE_HOST, 3131⟩ (fun _ => .netFail .timedOut)).1.trace.length = 1
    ∧ 1 ≤ (callMethodS (.ask_then_run "t" true true) ⟨BRIDGE_HOST, 3131⟩
        (fun _ => .netFail .timedOut)).1.trace.length :=
  ⟨(one_round_trip_per_call .health ⟨BRIDGE_HOST, 3131⟩ (fun _ => .netFail .timedOut)).1 rfl,
   ((one_round_trip_per_call (.ask_then_run "t" true true) ⟨BRIDGE_HOST, 3131⟩
      (fun _ => .netFail .timedOut)).2.1 rfl).1⟩

/-! ## C6 and C10: no mutable client state -/

/-- Claim C6: no method call mutates the client object — after any public method
call the object's `host` and `port` are what they were before — and the
object holds no state besides those two fields that a call could read: two
objects agreeing on `host` and `port` are interchangeable in any call. -/
theorem no_client_mutation (mc : MethodCall) (b b2 : AgentBridge) (o : Oracle)
    (hh : b2.host = b.host) (hp : b2.port = b.port) :
    ((callMethodS mc b o).2.host = b.host ∧ (callMethodS mc b o).2.port = b.port)
    ∧ callMethodS mc b2 o = callMethodS mc b o := by
  have hb : b2 = b := bridge_eq_of_fields b2 b hh hp
  rw [callMethodS_snd, hb]
  exact ⟨⟨rfl, rfl⟩, rfl⟩

/-- Witness for C6 at a concrete call. -/
theorem no_client_mutation_witness :
    (callMethodS .keep_going ⟨BRIDGE_HOST, 3132⟩ (fun _ => .netFail .timedOut)).2.host = BRIDGE_HOST
    ∧ (callMethodS .keep_going ⟨BRIDGE_HOST, 3132⟩ (fun _ => .netFail .timedOut)).2.port = 3132 :=
  (no_client_mutation .keep_going ⟨BRIDGE_HOST, 3132⟩ ⟨BRIDGE_HOST, 3132⟩
    (fun _ => .netFail .timedOut) rfl rfl).1

/-- Claim C10: each call is self-contained — the result of a later call is
unaffected by any earlier call on the same object, and the result is
determined only by the method's arguments, the `host`/`port` fields, and the
transport's responses (the oracle) during that call. -/
theorem calls_self_contained (mc1 mc2 : MethodCall) (b b2 : AgentBridge)
    (o1 o2 : Oracle) (hh : b2.host = b.host) (hp : b2.port = b.port) :
    (callMethodS mc2 ((callMethodS mc1 b o1).2) o2).1 = (callMethodS mc2 b o2).1
    ∧ (callMethodS mc2 b2 o2).1 = (callMethodS mc2 b o2).1 := by
  have hb : b2 = b := bridge_eq_of_fields b2 b hh hp
  rw [callMethodS_snd, hb]
  exact ⟨rfl, rfl⟩

/-- Witness for C10: a failed `prompt` call leaves a following `health` call
with exactly the result it would have had on a fresh client. -/
theorem calls_self_contained_witness :
    (callMethodS .health
        ((callMethodS (.prompt "q" "" "" 300 none) ⟨BRIDGE_HOST, 3131⟩
          (fun _ => .netFail .connectionRefused)).2)
        (fun _ => .reply 200 (some [("ok", .bool true)]))).1
      = (callMethodS .health ⟨BRIDGE_HOST, 3131⟩
          (fun _ => .reply 200 (some [("ok", .bool true)]))).1 :=
  (calls_self_contained (.prompt "q" "" "" 300 none) .health
    ⟨BRIDGE_HOST, 3131⟩ ⟨BRIDGE_HOST, 3131⟩
    (fun _ => .netFail .connectionRefused)
    (fun _ => .reply 200 (some [("ok", .bool true)])) rfl rfl).1

/-! ## C7: no retries -/

/-- Claim C7: the client never retries — during port discovery the probed ports
are a duplicate-free, order-preserving selection from the four candidate
ports (each probed at most once per construction), and no method ever issues
two requests to the same path in one invocation, so no request is re-sent
after a transport failure or a failure response. -/
theorem never_retries :
    (∀ (host : String) (o : Oracle),
        List.Sublist ((AgentBridge.«_discover_port» host o).trace.map (fun r => r.port))
          BRIDGE_PORTS
        ∧ ((AgentBridge.«_discover_port» host o).trace.map (fun r => r.port)).Nodup)
    ∧ (∀ (mc : MethodCall) (b : AgentBridge) (o : Oracle),
        ((callMethodS mc b o).1.trace.map (fun r => r.path)).Nodup) := by
  constructor
  · intro host o
    have hports : ((AgentBridge.«_discover_port» host o).trace.map (fun r => r.port))
        = BRIDGE_PORTS.takeWhile (fun p => !(probeOk host o p))
            ++ (BRIDGE_PORTS.find? (probeOk host o)).toList := by
      unfold AgentBridge.«_discover_port»
      rw [discoverLoop_eq]
      have hcomp : ((fun (r : Request) => r.port) ∘ fun p => mkGet host p "/health")
          = fun p => p := funext fun p => rfl
      show (((BRIDGE_PORTS.takeWhile (fun p => !(probeOk host o p)))
          ++ (BRIDGE_PORTS.find? (probeOk host o)).toList).map
            (fun p => mkGet host p "/health")).map (fun r => r.port) = _
      rw [List.map_map, hcomp, List.map_id']
    rw [hports]
    have hsub := takeWhile_append_find_sublist BRIDGE_PORTS (probeOk host o)
    exact ⟨hsub, List.Nodup.sublist hsub (by decide)⟩
  · intro mc b o
    cases mc
    case ask_then_run task rr sr =>
      obtain ⟨t2, t3, htr, h2, h3⟩ := ask_trace_shape b task rr sr o
      have ht : (callMethodS (.ask_then_run task rr sr) b o).1.trace
          = (AgentBridge.ask_then_run b task rr sr o).trace := rfl
      rw [ht, htr]
      rcases h2 with rfl | ⟨bd2, rfl⟩ <;> rcases h3 with rfl | ⟨bd3, rfl⟩ <;>
        simp [mkPost]
    all_goals exact callMethodS_paths_nodup_single _ b o (by rfl)

/-! ## C8: defaults when the expected key is absent -/

/-- Claim C8: each unwrapping accessor is total when its key is missing from the
response dict: `prompt` yields `""`, the list accessors yield `[]`,
`write_file` yields `0`, and the boolean accessors yield `False`, instead of
raising. -/
theorem absent_key_defaults (b : AgentBridge) (o : Oracle) (d : JDict)
    (ho : ∀ req, o req = .reply 200 (some d))
    (hText : dictGet d "text" = none)
    (hEntries : dictGet d "entries" = none)
    (hFiles : dictGet d "files" = none)
    (hBytes : dictGet d "bytes" = none)
    (hOk : dictGet d "ok" = none)
    (hCmds : dictGet d "commands_run" = none) :
    (∀ p model system t cf,
        (AgentBridge.prompt b p model system t cf o).result = .ok (.str ""))
    ∧ (AgentBridge.log b o).result = .ok (.arr [])
    ∧ (∀ path, (AgentBridge.list_dir b path o).result = .ok (.arr []))
    ∧ (∀ wid, (AgentBridge.watch_result b wid o).result = .ok (.arr []))
    ∧ (∀ ts, (AgentBridge.changes_since b ts o).result = .ok (.arr []))
    ∧ (AgentBridge.pending_approvals b o).result = .ok (.arr [])
    ∧ (AgentBridge.keep_going b o).result = .ok (.arr [])
    ∧ (∀ path content cd,
        (AgentBridge.write_file b path content cd o).result = .ok (.num 0))
    ∧ (∀ path ot nt,
        (AgentBridge.apply_edit b path ot nt o).result = .ok (.bool false))
    ∧ (∀ path line, (AgentBridge.open_file b path line o).result = .ok (.bool false))
    ∧ (∀ m l, (AgentBridge.show_message b m l o).result = .ok (.bool false))
    ∧ (∀ text ch, (AgentBridge.slack_post b text ch o).result = .ok (.bool false))
    ∧ (AgentBridge.accept_edits b o).result = .ok (.bool false)
    ∧ (AgentBridge.reject_edits b o).result = .ok (.bool false) := by
  have hpost : ∀ path body, (AgentBridge.«_post» b path body o).result = Except.ok d :=
    fun path body => post_result_200 b path body d o (ho _)
  have hget : ∀ path, (AgentBridge.«_get» b path o).result = Except.ok d :=
    fun path => get_result_200 b path d o (ho _)
  refine ⟨fun p model system t cf => ?_, ?_, fun path => ?_, fun wid => ?_,
    fun ts => ?_, ?_, ?_, fun path content cd => ?_, fun path ot nt => ?_,
    fun path line => ?_, fun m l => ?_, fun text ch => ?_, ?_, ?_⟩ <;>
    simp [AgentBridge.prompt, AgentBridge.log, AgentBridge.list_dir,
      AgentBridge.watch_result, AgentBridge.changes_since,
      AgentBridge.pending_approvals, AgentBridge.keep_going,
      AgentBridge.write_file, AgentBridge.apply_edit, AgentBridge.open_file,
      AgentBridge.show_message, AgentBridge.slack_post, AgentBridge.accept_edits,
      AgentBridge.reject_edits, CallOut.mapR, hpost, hget, Except.map, dictGetD,
      hText, hEntries, hFiles, hBytes, hOk, hCmds]

/-- Witness for C8: against a server that answers 200 with an empty JSON
object, the accessors return their defaults. -/
theorem absent_key_defaults_witness :
    (AgentBridge.prompt ⟨BRIDGE_HOST, 3131⟩ "q" "" "" 300 none
        (fun _ => .reply 200 (some []))).result = .ok (.str "")
    ∧ (AgentBridge.write_file ⟨BRIDGE_HOST, 3131⟩ "f" "c" true
        (fun _ => .reply 200 (some []))).result = .ok (.num 0) :=
  ⟨(absent_key_defaults ⟨BRIDGE_HOST, 3131⟩ (fun _ => .reply 200 (some [])) []
      (fun _ => rfl) rfl rfl rfl rfl rfl rfl).1 "q" "" "" 300 none,
   (absent_key_defaults ⟨BRIDGE_HOST, 3131⟩ (fun _ => .reply 200 (some [])) []
      (fun _ => rfl) rfl rfl rfl rfl rfl rfl).2.2.2.2.2.2.2.1 "f" "c" true⟩

/-! ## C9: falsy arguments are indistinguishable from omitted ones -/

/-- Claim C9: `prompt` with `model=''`, `system=''`, `context_files=None` sends a
body holding exactly `prompt` and `timeout`; `open_file` with `line=0` sends
a body without a `line` key; and `AgentBridge(port=0)` runs port discovery
exactly as `AgentBridge(port=None)` does, so a constructed client never has
port 0. -/
theorem falsy_args_omitted :
    (∀ (p : String) (t : Int), AgentBridge.promptBody p "" "" t none
        = [("prompt", .str p), ("timeout", .num t)])
    ∧ (∀ (b : AgentBridge) (p : String) (t : Int) (o : Oracle),
        (AgentBridge.prompt b p "" "" t none o).trace
          = [mkPost b.host b.port "/prompt"
              [("prompt", .str p), ("timeout", .num t)]])
    ∧ (∀ path : String, AgentBridge.openFileBody path 0 = [("path", .str path)])
    ∧ (∀ (b : AgentBridge) (path : String) (o : Oracle),
        (AgentBridge.open_file b path 0 o).trace
          = [mkPost b.host b.port "/open-file" [("path", .str path)]])
    ∧ (∀ (host : String) (o : Oracle),
        AgentBridge.«__init__» host (some 0) o = AgentBridge.«__init__» host none o)
    ∧ (∀ (host : String) (o : Oracle) (b1 : AgentBridge),
        (AgentBridge.«__init__» host (some 0) o).result = .ok b1
        → b1.port ∈ BRIDGE_PORTS ∧ b1.port ≠ 0) := by
  have hpb : ∀ (p : String) (t : Int), AgentBridge.promptBody p "" "" t none
      = [("prompt", .str p), ("timeout", .num t)] := by
    intro p t
    simp [AgentBridge.promptBody]
  have hob : ∀ path : String, AgentBridge.openFileBody path 0 = [("path", .str path)] := by
    intro path
    simp [AgentBridge.openFileBody]
  refine ⟨hpb, ?_, hob, ?_, ?_, ?_⟩
  · intro b p t o
    have h := post_trace_eq b "/prompt" (AgentBridge.promptBody p "" "" t none) o
    rw [hpb] at h
    exact h
  · intro b path o
    have h := post_trace_eq b "/open-file" (AgentBridge.openFileBody path 0) o
    rw [hob] at h
    exact h
  · intro host o
    simp [AgentBridge.«__init__»]
  · intro host o b1 h
    simp only [AgentBridge.«__init__», AgentBridge.«_discover_port», ne_eq,
      not_true_eq_false, if_false, reduceIte] at h
    rw [discoverLoop_eq] at h
    simp only [CallOut.mapR] at h
    cases hf : BRIDGE_PORTS.find? (probeOk host o) with
    | none => rw [hf] at h; simp [Except.map] at h
    | some p =>
      rw [hf] at h
      simp only [Except.map] at h
      have hb1 : b1 = ⟨host, p⟩ := by
        cases h
        rfl
      have hmem : p ∈ BRIDGE_PORTS := List.mem_of_find?_eq_some hf
      subst hb1
      refine ⟨hmem, ?_⟩
      intro h0
      rw [show (AgentBridge.mk host p).port = p from rfl] at h0
      subst h0
      revert hmem
      decide

/-- Witness for C9: with a server on 3131, `AgentBridge(port=0)` discovers
port 3131 — a port in the probe list and not 0. -/
theorem falsy_args_omitted_witness :
    (AgentBridge.mk "127.0.0.1" 3131).port ∈ BRIDGE_PORTS
    ∧ (AgentBridge.mk "127.0.0.1" 3131).port ≠ 0 :=
  falsy_args_omitted.2.2.2.2.2 "127.0.0.1"
    (fun _ => .reply 200 (some [("ok", .bool true)])) ⟨"127.0.0.1", 3131⟩ rfl

/-! ## C3: the `ask_then_run` pipeline -/

theorem CallOut.eq_mk {α : Type} (c : CallOut α) (r : Except PyExc α)
    (t : List Request) (h1 : c.result = r) (h2 : c.trace = t) : c = ⟨r, t⟩ := by
  rw [← h1, ← h2]

theorem strings_map_str (fs : List String) :
    JVal.strings (.arr (fs.map .str)) = fs := by
  induction fs with
  | nil => rfl
  | cons f fs ih =>
    simp only [JVal.strings, List.map_cons, List.filterMap_cons] at ih ⊢
    rw [ih]

theorem dictGet_some_of_getD_arr (d : JDict) (k : String) (xs : List JVal)
    (h : dictGetD d k .null = .arr xs) : dictGet d k = some (.arr xs) := by
  unfold dictGetD at h
  cases hg : dictGet d k with
  | none =>
    rw [hg] at h
    exact absurd h (by simp [Option.getD])
  | some v =>
    rw [hg] at h
    simp only [Option.getD] at h
    rw [h]

/-- The file loop equals: find the first entry ending in `.py` or `.js`, and
run it with the matching interpreter; no match means no request and empty
output. -/
theorem runFirst_eq (b : AgentBridge) (o : Oracle) (fs : List String) :
    AgentBridge.runFirst b o fs =
      match fs.find? (fun g => pyEndsWith g ".py" || pyEndsWith g ".js") with
      | none => ⟨.ok "", []⟩
      | some f => AgentBridge.run_and_capture b
          (if pyEndsWith f ".py" then "python \"" ++ f ++ "\""
           else "node \"" ++ f ++ "\"") "" 120 o := by
  induction fs with
  | nil => rfl
  | cons f fs ih =>
    rw [AgentBridge.runFirst]
    by_cases hpy : pyEndsWith f ".py" = true
    · have hfind : (f :: fs).find? (fun g => pyEndsWith g ".py" || pyEndsWith g ".js")
          = some f := List.find?_cons_of_pos _ (by simp [hpy])
      rw [if_pos hpy, hfind]
      dsimp only
      rw [if_pos hpy]
    · by_cases hjs : pyEndsWith f ".js" = true
      · have hfind : (f :: fs).find? (fun g => pyEndsWith g ".py" || pyEndsWith g ".js")
            = some f := List.find?_cons_of_pos _ (by simp [hjs])
        rw [if_neg hpy, if_pos hjs, hfind]
        dsimp only
        rw [if_neg hpy]
      · have hfind : (f :: fs).find? (fun g => pyEndsWith g ".py" || pyEndsWith g ".js")
            = fs.find? (fun g => pyEndsWith g ".py" || pyEndsWith g ".js") :=
          List.find?_cons_of_neg _ (by simp [hpy, hjs])
        rw [if_neg hpy, if_neg hjs, hfind]
        exact ih

theorem run_and_capture_result (b : AgentBridge) (c cwd : String) (t : Int)
    (o : Oracle) (S : JDict) (out : String)
    (hrun : o (mkPost b.host b.port "/run-terminal"
        (AgentBridge.runTerminalBody c cwd true t)) = .reply 200 (some S))
    (hout : dictGetD S "stdout" (.str "") = .str out) :
    (AgentBridge.run_and_capture b c cwd t o).result = .ok (pyStrip out) := by
  have h1 : (AgentBridge.run_terminal b c cwd true t o).result = .ok S :=
    post_result_200 b "/run-terminal" (AgentBridge.runTerminalBody c cwd true t) S o hrun
  show (AgentBridge.run_terminal b c cwd true t o).result.bind _ = _
  rw [h1]
  show ((match dictGetD S "stdout" (.str "") with
    | .str s => Except.ok (pyStrip s)
    | _ => Except.error PyExc.attributeErr) : Except PyExc String) = _
  rw [hout]

/-- Claim C3: `ask_then_run` first calls `copilot_task` with `auto_accept=True`;
when `run_result` is true and the returned `files_changed` list is non-empty,
it runs exactly the first entry ending in `.py` (with python) or `.js` (with
node) — issuing exactly one `/run-terminal` request with that command and no
other — capturing and stripping its stdout; when `slack_report` is true it
posts exactly one Slack message; it returns the `copilot_task` dict with the
captured output under the key `run_output` (the empty string when no file
matched, in which case no file is run at all). -/
theorem ask_then_run_pipeline (b : AgentBridge) (task : String) (sr : Bool)
    (o : Oracle) (R S T : JDict) (fs : List String) (f cmd out : String)
    (hct : o (mkPost b.host b.port "/copilot-task"
        (AgentBridge.copilotTaskBody task true 60 300 none ""))
      = .reply 200 (some R))
    (hfc : dictGetD R "files_changed" .null = .arr (fs.map .str))
    (hfind : fs.find? (fun g => pyEndsWith g ".py" || pyEndsWith g ".js") = some f)
    (hcmd : cmd = (if pyEndsWith f ".py" then "python \"" ++ f ++ "\""
        else "node \"" ++ f ++ "\""))
    (hrun : o (mkPost b.host b.port "/run-terminal"
        (AgentBridge.runTerminalBody cmd "" true 120)) = .reply 200 (some S))
    (hout : dictGetD S "stdout" (.str "") = .str out)
    (hsl : ∀ bd, o (mkPost b.host b.port "/slack-post" bd) = .reply 200 (some T)) :
    ((AgentBridge.ask_then_run b task true sr o).result
        = .ok (dictSet R "run_output" (.str (pyStrip out))))
    ∧ ((AgentBridge.ask_then_run b task true sr o).trace.map (fun r => r.path)
        = ["/copilot-task", "/run-terminal"] ++ (if sr then ["/slack-post"] else []))
    ∧ ((AgentBridge.ask_then_run b task true sr o).trace[1]?
        = some (mkPost b.host b.port "/run-terminal"
            (AgentBridge.runTerminalBody cmd "" true 120)))
    ∧ (∀ (o2 : Oracle) (R2 : JDict) (fs2 : List String),
        o2 (mkPost b.host b.port "/copilot-task"
            (AgentBridge.copilotTaskBody task true 60 300 none ""))
          = .reply 200 (some R2)
        → dictGetD R2 "files_changed" .null = .arr (fs2.map .str)
        → fs2.find? (fun g => pyEndsWith g ".py" || pyEndsWith g ".js") = none
        → AgentBridge.ask_then_run b task true false o2
            = ⟨.ok (dictSet R2 "run_output" (.str "")),
               [mkPost b.host b.port "/copilot-task"
                 (AgentBridge.copilotTaskBody task true 60 300 none "")]⟩) := by
  have hsc1 : AgentBridge.copilot_task b task true 60 300 none "" o
      = ⟨.ok R, [mkPost b.host b.port "/copilot-task"
          (AgentBridge.copilotTaskBody task true 60 300 none "")]⟩ :=
    CallOut.eq_mk _ _ _
      (post_result_200 b "/copilot-task" _ R o hct)
      (copilot_task_trace b task true 60 300 none "" o)
  have hne : fs ≠ [] := by
    intro h
    rw [h] at hfind
    simp [List.find?] at hfind
  have hdg : dictGet R "files_changed" = some (.arr (fs.map .str)) :=
    dictGet_some_of_getD_arr _ _ _ hfc
  have hfc2 : dictGetD R "files_changed" (.arr []) = .arr (fs.map .str) := by
    simp [dictGetD, hdg]
  have htruthy : (JVal.arr (fs.map JVal.str)).truthy = true := by
    simp [JVal.truthy, List.isEmpty_eq_true, hne]
  have hrf : AgentBridge.runFirst b o fs
      = ⟨.ok (pyStrip out), [mkPost b.host b.port "/run-terminal"
          (AgentBridge.runTerminalBody cmd "" true 120)]⟩ := by
    rw [runFirst_eq, hfind]
    dsimp only
    rw [← hcmd]
    exact CallOut.eq_mk _ _ _
      (run_and_capture_result b cmd "" 120 o S out hrun hout)
      (run_and_capture_trace b cmd "" 120 o)
  have key : AgentBridge.ask_then_run b task true sr o
      = ⟨.ok (dictSet R "run_output" (.str (pyStrip out))),
         [mkPost b.host b.port "/copilot-task"
            (AgentBridge.copilotTaskBody task true 60 300 none ""),
          mkPost b.host b.port "/run-terminal"
            (AgentBridge.runTerminalBody cmd "" true 120)]
          ++ (if sr then [mkPost b.host b.port "/slack-post"
              (AgentBridge.slackPostBody
                (AgentBridge.askSlackMsg R (pyStrip out)) "")] else [])⟩ := by
    unfold AgentBridge.ask_then_run
    rw [hsc1]
    dsimp only
    rw [hfc, if_pos ⟨rfl, htruthy⟩, strings_map_str, hrf]
    dsimp only
    cases sr with
    | true =>
      rw [if_pos rfl]
      have hslr : AgentBridge.slack_post b
          (AgentBridge.askSlackMsg R (pyStrip out)) "" o
          = ⟨.ok (dictGetD T "ok" (.bool false)),
             [mkPost b.host b.port "/slack-post"
               (AgentBridge.slackPostBody
                 (AgentBridge.askSlackMsg R (pyStrip out)) "")]⟩ := by
        refine CallOut.eq_mk _ _ _ ?_ (slack_post_trace b _ "" o)
        show ((AgentBridge.«_post» b "/slack-post"
            (AgentBridge.slackPostBody
              (AgentBridge.askSlackMsg R (pyStrip out)) "") o).mapR _).result = _
        rw [CallOut.mapR]
        rw [post_result_200 b "/slack-post" _ T o (hsl _)]
        rfl
      rw [hslr]
      rfl
    | false =>
      rw [if_neg (by simp)]
      rfl
  refine ⟨by rw [key], by cases sr <;> simp [key, mkPost],
    by rw [key]; cases sr <;> rfl, ?_⟩
  intro o2 R2 fs2 hct2 hfc2b hnone
  have hsc1b : AgentBridge.copilot_task b task true 60 300 none "" o2
      = ⟨.ok R2, [mkPost b.host b.port "/copilot-task"
          (AgentBridge.copilotTaskBody task true 60 300 none "")]⟩ :=
    CallOut.eq_mk _ _ _
      (post_result_200 b "/copilot-task" _ R2 o2 hct2)
      (copilot_task_trace b task true 60 300 none "" o2)
  have hrf2 : AgentBridge.runFirst b o2 fs2 = ⟨.ok "", []⟩ := by
    rw [runFirst_eq, hnone]
  unfold AgentBridge.ask_then_run
  rw [hsc1b]
  dsimp only
  rw [hfc2b]
  have hstep : (if (true = true) ∧ ((JVal.arr (fs2.map JVal.str)).truthy = true) then
      AgentBridge.runFirst b o2 (JVal.arr (fs2.map JVal.str)).strings
    else ⟨.ok "", []⟩ : CallOut String) = ⟨.ok "", []⟩ := by
    split
    · rw [strings_map_str]
      exact hrf2
    · rfl
  rw [hstep]
  dsimp only
  rw [if_neg (by simp)]
  rfl

/-- Witness for C3: with `files_changed = ["notes.txt", "a.py", "b.js"]` the
pipeline runs `python "a.py"` (skipping `notes.txt`, never reaching `b.js`),
posts one Slack message, and returns the task dict with the stripped stdout
under `run_output`. -/
theorem ask_then_run_pipeline_witness :
    (AgentBridge.ask_then_run ⟨BRIDGE_HOST, 3131⟩ "t" true true
        (fun req => if req.path = "/copilot-task" then
            .reply 200 (some [("ok", .bool true),
              ("files_changed", .arr [.str "notes.txt", .str "a.py", .str "b.js"])])
          else if req.path = "/run-terminal" then
            .reply 200 (some [("ok", .bool true), ("stdout", .str " hi \n")])
          else .reply 200 (some [("ok", .bool true)]))).result
      = .ok (dictSet [("ok", .bool true),
          ("files_changed", .arr [.str "notes.txt", .str "a.py", .str "b.js"])]
          "run_output" (.str (pyStrip " hi \n"))) :=
  (ask_then_run_pipeline ⟨BRIDGE_HOST, 3131⟩ "t" true
    (fun req => if req.path = "/copilot-task" then
        .reply 200 (some [("ok", .bool true),
          ("files_changed", .arr [.str "notes.txt", .str "a.py", .str "b.js"])])
      else if req.path = "/run-terminal" then
        .reply 200 (some [("ok", .bool true), ("stdout", .str " hi \n")])
      else .reply 200 (some [("ok", .bool true)]))
    [("ok", .bool true),
     ("files_changed", .arr [.str "notes.txt", .str "a.py", .str "b.js"])]
    [("ok", .bool true), ("stdout", .str " hi \n")]
    [("ok", .bool true)]
    ["notes.txt", "a.py", "b.js"] "a.py" ("python \"a.py\"") " hi \n"
    rfl rfl (by decide) (by decide) rfl rfl (fun _ => rfl)).1
